import Mathlib

/-!
Verification development for the databricks-insight-agent repository.

The Python sources are shallowly embedded: pure functions become Lean
functions, the stateful rate limiter becomes explicit state passing, and
fallible code returns `Option`/`Except`.  Machine details that Python
abstracts (regular-expression search, `str` truthiness, dict iteration
order) are modelled explicitly and noted at each definition.
-/

/- ===================================================================
   Basic string machinery.

   Python string operations are modelled over `List Char`.  `String.toLower`
   and friends from core Lean do not reduce in the kernel, so lowering and
   uppering are done with `Char.toLower`/`Char.toUpper` maps.
   =================================================================== -/

/-- Characters Python's `\s` regex class and `str.strip`/`str.split`
treat as whitespace (ASCII range). -/
def isPyWS (c : Char) : Bool :=
  c = ' ' || c = '\t' || c = '\n' || c = '\r' || c = '\x0b' || c = '\x0c'

/-- Python's `\w` regex class (ASCII part): letters, digits, underscore. -/
def isWordChar (c : Char) : Bool :=
  c.isAlpha || c.isDigit || c = '_'

def lowerL (s : List Char) : List Char := s.map Char.toLower

def upperL (s : List Char) : List Char := s.map Char.toUpper

/-- Python `str.lower()`. -/
def lowerStr (s : String) : String := String.mk (lowerL s.data)

/-- Python `str.upper()`. -/
def upperStr (s : String) : String := String.mk (upperL s.data)

/-- Substring test on character lists: Python's `sub in hay`. -/
def containsL (hay sub : List Char) : Bool :=
  sub.isPrefixOf hay ||
    match hay with
    | [] => false
    | _ :: t => containsL t sub

/-- Python's `sub in hay` on strings. -/
def containsStr (hay sub : String) : Bool := containsL hay.data sub.data

/-- One step of Python `str.replace(old, new)` driven by explicit fuel
(the fuel is only a termination device; `old` is consumed from the left,
non-overlapping, exactly as CPython does). -/
def replaceFuel (old new : List Char) : Nat → List Char → List Char
  | 0, s => s
  | _ + 1, [] => []
  | fuel + 1, c :: rest =>
    if old.isPrefixOf (c :: rest) then
      new ++ replaceFuel old new fuel ((c :: rest).drop old.length)
    else
      c :: replaceFuel old new fuel rest

/-- Python `str.replace(old, new)` for non-empty `old` (every call site in
the embedded sources passes a non-empty pattern). -/
def pyReplace (s old new : String) : String :=
  if old.data.isEmpty then s
  else String.mk (replaceFuel old.data new.data s.data.length s.data)

/-- Decimal rendering of a digit run, `int(match.group(1))`. -/
def digitsToNat (ds : List Char) : Nat :=
  ds.foldl (fun acc c => 10 * acc + (c.toNat - '0'.toNat)) 0

/- ===================================================================
   src/sql_generator.py — data model
   =================================================================== -/

/-- `TableSchema` dataclass of `src/sql_generator.py`. -/
structure TableSchema where
  name : String
  columns : List String
  column_types : List (String × String)
  description : Option String := none
deriving DecidableEq, Repr

/-- `SchemaManager`: the backing `dict` is modelled as an insertion-ordered
association list, matching Python 3 dict iteration order. -/
structure SchemaManager where
  tables : List (String × TableSchema)
deriving DecidableEq, Repr

namespace SchemaManager

/-- `SchemaManager.add_table`: dict assignment keeps the original position
of an existing key and appends a fresh key at the end. -/
def add_table (sm : SchemaManager) (t : TableSchema) : SchemaManager :=
  if sm.tables.any (fun e => e.1 = t.name) then
    ⟨sm.tables.map (fun e => if e.1 = t.name then (t.name, t) else e)⟩
  else
    ⟨sm.tables ++ [(t.name, t)]⟩

/-- `SchemaManager.get_table`. -/
def get_table (sm : SchemaManager) (table_name : String) : Option TableSchema :=
  (sm.tables.find? (fun e => e.1 = table_name)).map (fun e => e.2)

/-- `SchemaManager.get_all_tables` (dict key order). -/
def get_all_tables (sm : SchemaManager) : List String :=
  sm.tables.map (fun e => e.1)

/-- `SchemaManager.get_table_columns`. -/
def get_table_columns (sm : SchemaManager) (table_name : String) : Option (List String) :=
  (sm.get_table table_name).map (fun t => t.columns)

/-- `SchemaManager.column_exists`. -/
def column_exists (sm : SchemaManager) (table_name column_name : String) : Bool :=
  match sm.get_table table_name with
  | none => false
  | some t => t.columns.contains column_name

/-- One table's block of `SchemaManager.get_schema_summary`. -/
def table_summary (t : TableSchema) : String :=
  "\nTable: " ++ t.name ++ "\n" ++
  (match t.description with
   | some d => "  Description: " ++ d ++ "\n"
   | none => "") ++
  "  Columns:\n" ++
  t.columns.foldl
    (fun acc col =>
      acc ++ "    - " ++ col ++ " (" ++
        (((t.column_types.find? (fun e => e.1 = col)).map (fun e => e.2)).getD "unknown") ++ ")\n")
    ""

/-- `SchemaManager.get_schema_summary`. -/
def get_schema_summary (sm : SchemaManager) : String :=
  if sm.tables.isEmpty then "No tables in schema"
  else
    sm.tables.foldl (fun acc e => acc ++ table_summary e.2)
      "Available tables and columns:\n"

end SchemaManager

/- ===================================================================
   src/sql_generator.py — SQLGenerator.generate_sql

   Python argument conventions modelled explicitly:
   * list/dict arguments are `Option (List _)`; `none` is Python `None`
     and `some []` an empty list/dict — both are falsy under `if arg:`;
   * the `limit` argument can be `None`, an `int`, or any other value,
     of which only truthiness and `isinstance(_, int)` matter;
   * filter values carry Python's runtime type. Numeric scalars are
     modelled as integers (no claim depends on float formatting), and
     the elements of an `IN` list are scalars, which is the only shape
     the generator's callers produce.
   =================================================================== -/

/-- Truthiness of a Python list/dict argument. -/
def pyT {α : Type} : Option (List α) → Bool
  | none => false
  | some [] => false
  | some (_ :: _) => true

/-- Contents of a Python list/dict argument (empty when falsy). -/
def optL {α : Type} : Option (List α) → List α
  | none => []
  | some l => l

/-- The `limit` argument of `generate_sql`: `None`, an `int`, or a value
of another type (split by its truthiness, the only thing the code
observes about it besides `isinstance(_, int)`). -/
inductive LimitVal where
  | noneV
  | intV (n : Int)
  | nonIntTruthy
  | nonIntFalsy
deriving DecidableEq, Repr

/-- Python truthiness of the `limit` argument. -/
def LimitVal.truthy : LimitVal → Bool
  | .noneV => false
  | .intV n => n ≠ 0
  | .nonIntTruthy => true
  | .nonIntFalsy => false

/-- Scalar element of an `IN`-list filter value. -/
inductive ScalarVal where
  | strS (s : String)
  | intS (n : Int)
  | nullS
  | otherS
deriving DecidableEq, Repr

/-- A filter value: Python `str`, numeric, `list`, `None`, or any other
type (for which the source's `if`/`elif` chain emits no clause). -/
inductive FilterVal where
  | strV (s : String)
  | intV (n : Int)
  | listV (vs : List ScalarVal)
  | nullV
  | otherV
deriving DecidableEq, Repr

/-- `value.replace("'", "''")` — escaping by doubling single quotes. -/
def escQ (s : String) : String :=
  String.mk (s.data.flatMap (fun c => if c = '\'' then ['\'', '\''] else [c]))

/-- Python `str(v)` for a scalar (`str` of a string is itself, of an int
its decimal form, of `None` the text `None`; other objects render via
their default repr, which no claim observes). -/
def ScalarVal.pyStr : ScalarVal → String
  | .strS s => s
  | .intS n => toString n
  | .nullS => "None"
  | .otherS => "<object>"

def ScalarVal.isStr : ScalarVal → Bool
  | .strS _ => true
  | _ => false

/-- The joined value list of an `IN (...)` clause (src/sql_generator.py
lines 153-159): all-string lists are quoted with doubled-quote escaping,
otherwise each element is rendered with `str`. -/
def inValues (vs : List ScalarVal) : String :=
  if vs.all ScalarVal.isStr then
    String.intercalate ", "
      (vs.map (fun v => "'" ++ escQ (match v with | .strS s => s | _ => "") ++ "'"))
  else
    String.intercalate ", " (vs.map ScalarVal.pyStr)

/-- The WHERE fragments one `(col, value)` filter entry contributes
(src/sql_generator.py lines 146-161); an unhandled value type
contributes none. -/
def whereClauses (col : String) : FilterVal → List String
  | .strV s => [col ++ " = '" ++ escQ s ++ "'"]
  | .intV n => [col ++ " = " ++ toString n]
  | .listV vs => [col ++ " IN (" ++ inValues vs ++ ")"]
  | .nullV => [col ++ " IS NULL"]
  | .otherV => []

/-- The SELECT-clause columns (src/sql_generator.py lines 107-116):
requested columns are validated when the argument is truthy, otherwise
the table's full column list is used. -/
def selectColsOf (sm : SchemaManager) (table_name : String) (table : TableSchema)
    (columns : Option (List String)) : Option (List String) :=
  if pyT columns then
    if (optL columns).all (fun c => sm.column_exists table_name c) then some (optL columns)
    else none
  else some table.columns

/-- `valid_agg_funcs` of src/sql_generator.py line 127. -/
def valid_agg_funcs : List String := ["COUNT", "SUM", "AVG", "MIN", "MAX"]

/-- One aggregation's SELECT fragment: `FUNC(col) as col_func`. -/
def aggPart (col agg_func : String) : String :=
  upperStr agg_func ++ "(" ++ col ++ ") as " ++ col ++ "_" ++ lowerStr agg_func

/-- The aggregation loop of src/sql_generator.py lines 120-132: each
column must exist and each function must be a valid aggregation. -/
def buildAggParts (sm : SchemaManager) (table_name : String) :
    List (String × String) → Option (List String)
  | [] => some []
  | (col, f) :: rest =>
    if sm.column_exists table_name col then
      if valid_agg_funcs.contains (upperStr f) then
        (buildAggParts sm table_name rest).map (fun ps => aggPart col f :: ps)
      else none
    else none

/-- SELECT parts (src/sql_generator.py lines 118-134): aggregation parts
when the aggregation dict is truthy, otherwise the selected columns. -/
def selectPartsOf (sm : SchemaManager) (table_name : String)
    (select_cols : List String) (aggregations : Option (List (String × String))) :
    Option (List String) :=
  if pyT aggregations then buildAggParts sm table_name (optL aggregations)
  else some select_cols

/-- The filter loop of src/sql_generator.py lines 140-161: every filter
column must exist; each entry contributes its clauses in order. -/
def buildWhereParts (sm : SchemaManager) (table_name : String) :
    List (String × FilterVal) → Option (List String)
  | [] => some []
  | (col, v) :: rest =>
    if sm.column_exists table_name col then
      (buildWhereParts sm table_name rest).map (fun ps => whereClauses col v ++ ps)
    else none

/-- WHERE parts (src/sql_generator.py lines 139-164); a falsy filter
argument contributes nothing. -/
def wherePartsOf (sm : SchemaManager) (table_name : String)
    (filters : Option (List (String × FilterVal))) : Option (List String) :=
  if pyT filters then buildWhereParts sm table_name (optL filters)
  else some []

/-- GROUP BY clause (src/sql_generator.py lines 167-172): `some none`
means "valid, no clause"; `none` means generation fails. -/
def groupByClause (sm : SchemaManager) (table_name : String)
    (group_by : Option (List String)) : Option (Option String) :=
  if pyT group_by then
    if (optL group_by).all (fun c => sm.column_exists table_name c) then
      some (some (" GROUP BY " ++ String.intercalate ", " (optL group_by)))
    else none
  else some none

/-- The ORDER BY loop of src/sql_generator.py lines 176-187: every column
must exist and every direction must be ASC or DESC after uppercasing. -/
def buildOrderParts (sm : SchemaManager) (table_name : String) :
    List (String × String) → Option (List String)
  | [] => some []
  | (col, dir) :: rest =>
    if sm.column_exists table_name col then
      if upperStr dir = "ASC" || upperStr dir = "DESC" then
        (buildOrderParts sm table_name rest).map
          (fun ps => (col ++ " " ++ upperStr dir) :: ps)
      else none
    else none

/-- ORDER BY clause (src/sql_generator.py lines 175-190). -/
def orderByClause (sm : SchemaManager) (table_name : String)
    (order_by : Option (List (String × String))) : Option (Option String) :=
  if pyT order_by then
    (buildOrderParts sm table_name (optL order_by)).map
      (fun ps =>
        if ps.isEmpty then none
        else some (" ORDER BY " ++ String.intercalate ", " ps))
  else some none

/-- LIMIT clause (src/sql_generator.py lines 193-197): a falsy limit is
skipped; a truthy one must be an `int` and positive. -/
def limitClause (limit : LimitVal) : Option (Option String) :=
  if limit.truthy then
    match limit with
    | .intV n => if n ≤ 0 then none else some (some (" LIMIT " ++ toString n))
    | _ => none
  else some none

/-- `SQLGenerator.generate_sql` (src/sql_generator.py lines 76-200):
validates the table and every referenced column/function/direction and
assembles the query clause by clause, failing (`none`) on the first
invalid element. -/
def generate_sql (sm : SchemaManager) (table_name : String)
    (columns : Option (List String))
    (filters : Option (List (String × FilterVal)))
    (aggregations : Option (List (String × String)))
    (group_by : Option (List String))
    (order_by : Option (List (String × String)))
    (limit : LimitVal) : Option String :=
  match sm.get_table table_name with
  | none => none
  | some table =>
    match selectColsOf sm table_name table columns with
    | none => none
    | some select_cols =>
      match selectPartsOf sm table_name select_cols aggregations with
      | none => none
      | some select_parts =>
        let sql0 := "SELECT " ++ String.intercalate ", " select_parts ++ " FROM " ++ table_name
        match wherePartsOf sm table_name filters with
        | none => none
        | some where_parts =>
          let sql1 :=
            if where_parts.isEmpty then sql0
            else sql0 ++ " WHERE " ++ String.intercalate " AND " where_parts
          match groupByClause sm table_name group_by with
          | none => none
          | some gbc =>
            let sql2 := sql1 ++ gbc.getD ""
            match orderByClause sm table_name order_by with
            | none => none
            | some obc =>
              let sql3 := sql2 ++ obc.getD ""
              match limitClause limit with
              | none => none
              | some lc => some (sql3 ++ lc.getD "")

/- ===================================================================
   src/sql_generator.py — SQLGenerator.parse_query_intent
   =================================================================== -/

/-- The intent dictionary built by `parse_query_intent` (its keys are the
keyword arguments of `generate_sql`).  `filters` starts as an empty dict
(`some []`), which is distinct from Python `None` even though both are
falsy. -/
structure QueryIntent where
  table_name : Option String
  columns : Option (List String)
  filters : Option (List (String × FilterVal))
  aggregations : Option (List (String × String))
  group_by : Option (List String)
  order_by : Option (List (String × String))
  limit : LimitVal
deriving DecidableEq, Repr

/-- Aggregation trigger words of src/sql_generator.py line 233. -/
def agg_words : List String := ["count", "total", "sum", "average", "avg"]

/-- Match of the regex `(?:top|first|limit)\s+(\d+)` at the start of a
suffix: one of the three literals (tried in alternation order), at least
one whitespace, then a digit run, whose value is returned. -/
def limitNumAt (s : List Char) : Option Nat :=
  (["top", "first", "limit"].firstM (fun kw => do
    let r1 ← if kw.data.isPrefixOf s then some (s.drop kw.data.length) else none
    let r2 ← if (r1.headD ' ').isDigit || r1.isEmpty then none else
      if isPyWS (r1.headD ' ') then some (r1.dropWhile isPyWS) else none
    match r2.takeWhile Char.isDigit with
    | [] => none
    | ds => some (digitsToNat ds)))

/-- `re.search(r'(?:top|first|limit)\s+(\d+)', query_lower)` — leftmost
position wins, alternatives tried in order at each position. -/
def searchLimitNum : List Char → Option Nat
  | [] => none
  | s@(_ :: t) =>
    match limitNumAt s with
    | some n => some n
    | none => searchLimitNum t

/-- `SQLGenerator.parse_query_intent` (src/sql_generator.py lines
202-252): keyword-heuristic extraction of table, aggregation, ordering
and limit from the lowercased query.  The `context` argument is accepted
and unused, as in the source. -/
def parse_query_intent (sm : SchemaManager) (user_query : String)
    (context : Option String) : QueryIntent :=
  let _ := context
  let query_lower := lowerStr user_query
  let table_name := (sm.get_all_tables).find? (fun t => containsStr query_lower (lowerStr t))
  let aggregations :=
    if agg_words.any (fun w => containsStr query_lower w) then
      some (if containsStr query_lower "count" || containsStr query_lower "total" then
              [("*", "COUNT")]
            else [])
    else none
  let order_by :=
    if containsStr query_lower "top" || containsStr query_lower "highest" ||
        containsStr query_lower "largest" then
      some [("value", "DESC")]
    else none
  let limit :=
    match searchLimitNum query_lower.data with
    | some n => LimitVal.intV n
    | none =>
      if containsStr query_lower "top" then LimitVal.intV 10 else LimitVal.noneV
  { table_name := table_name
    columns := none
    filters := some []
    aggregations := aggregations
    group_by := none
    order_by := order_by
    limit := limit }

/- ===================================================================
   src/security.py — SecurityConfig and SecurityValidator.validate_query

   Each regex in `sql_injection_patterns` is modelled by a dedicated
   matcher over the lowercased character list (the patterns are compiled
   with `re.IGNORECASE`).  Greedy character-class quantifiers followed by
   a literal outside the class need no backtracking, so each matcher
   consumes greedily.  `re.search` tries every start position from the
   left; `$` with no MULTILINE accepts end-of-string or a final newline,
   which for the two `\s*$` patterns is equivalent to "the remainder is
   all whitespace" because a final newline is itself whitespace.
   =================================================================== -/

/-- `SecurityConfig` (src/security.py lines 15-39), with its defaults. -/
structure SecurityConfig where
  max_query_length : Nat := 10000
  rate_limit_per_minute : Nat := 60
  allowed_schemas : List String := ["default", "analytics"]
  enable_sql_injection_protection : Bool := true
  dangerous_sql_keywords : List String :=
    ["DROP", "DELETE", "TRUNCATE", "ALTER", "CREATE",
     "INSERT", "UPDATE", "GRANT", "REVOKE", "EXEC", "EXECUTE"]
deriving DecidableEq, Repr

def default_config : SecurityConfig := {}

/-- Consume an exact literal. -/
def eatLit : List Char → List Char → Option (List Char)
  | [], s => some s
  | _ :: _, [] => none
  | c :: cs, x :: xs => if x = c then eatLit cs xs else none

/-- Consume `\s*`. -/
def eatWS0 (s : List Char) : List Char := s.dropWhile isPyWS

/-- Consume `\s+`. -/
def eatWS1 (s : List Char) : Option (List Char) :=
  match s with
  | [] => none
  | c :: rest => if isPyWS c then some (rest.dropWhile isPyWS) else none

/-- `;\s*--` at this position. -/
def injSemiComment (s : List Char) : Bool :=
  match s with
  | ';' :: rest => (eatLit ['-', '-'] (eatWS0 rest)).isSome
  | _ => false

/-- `;\s*$` at this position. -/
def injSemiEnd (s : List Char) : Bool :=
  match s with
  | ';' :: rest => (eatWS0 rest).isEmpty
  | _ => false

/-- `UNION\s+SELECT` at this position (input lowercased). -/
def injUnionSelect (s : List Char) : Bool :=
  (do
    let r1 ← eatLit "union".data s
    let r2 ← eatWS1 r1
    eatLit "select".data r2).isSome

/-- `OR\s+1\s*=\s*1` at this position (input lowercased). -/
def injOr11 (s : List Char) : Bool :=
  (do
    let r1 ← eatLit "or".data s
    let r2 ← eatWS1 r1
    let r3 ← eatLit ['1'] r2
    let r4 ← eatLit ['='] (eatWS0 r3)
    eatLit ['1'] (eatWS0 r4)).isSome

/-- `'\s*OR\s*'` at this position (input lowercased). -/
def injQuoteOr (s : List Char) : Bool :=
  (do
    let r1 ← eatLit ['\''] s
    let r2 ← eatLit "or".data (eatWS0 r1)
    eatLit ['\''] (eatWS0 r2)).isSome

/-- `--\s*$` at this position. -/
def injCommentEnd (s : List Char) : Bool :=
  (eatLit ['-', '-'] s).elim false (fun r => (eatWS0 r).isEmpty)

/-- After an opening `/*`: can `.*\*/` match, i.e. is there a closing
`*/` with no newline before it (`.` does not match newlines)? -/
def blockCommentClose : List Char → Bool
  | [] => false
  | s@(c :: t) =>
    if ['*', '/'].isPrefixOf s then true
    else if c = '\n' then false
    else blockCommentClose t

/-- `/\*.*\*/` at this position. -/
def injBlockComment (s : List Char) : Bool :=
  (eatLit ['/', '*'] s).elim false blockCommentClose

/-- `xp_` at this position (input lowercased). -/
def injXp (s : List Char) : Bool := "xp_".data.isPrefixOf s

/-- `sp_` at this position (input lowercased). -/
def injSp (s : List Char) : Bool := "sp_".data.isPrefixOf s

/-- `re.search`: does the position matcher fire at any suffix (the empty
final suffix included)? -/
def scanAny (f : List Char → Bool) : List Char → Bool
  | [] => f []
  | s@(_ :: t) => f s || scanAny f t

/-- Does the query match any of the nine configured injection patterns
(src/security.py lines 29-39, searched case-insensitively)? -/
def has_injection (query : String) : Bool :=
  let l := lowerL query.data
  scanAny injSemiComment l || scanAny injSemiEnd l || scanAny injUnionSelect l ||
  scanAny injOr11 l || scanAny injQuoteOr l || scanAny injCommentEnd l ||
  scanAny injBlockComment l || scanAny injXp l || scanAny injSp l

/-- `re.search(rf"\b{keyword}\b", text)`: the keyword occurs with no word
character immediately before or after.  The scan threads the previous
character to decide the left boundary. -/
def wordBoundedAux (kw : List Char) (prev : Option Char) : List Char → Bool
  | [] => false
  | s@(c :: t) =>
    ((match prev with
      | none => true
      | some p => !isWordChar p) &&
     kw.isPrefixOf s &&
     (match s.drop kw.length with
      | [] => true
      | d :: _ => !isWordChar d)) ||
    wordBoundedAux kw (some c) t

def wordBounded (kw : List Char) (s : List Char) : Bool :=
  wordBoundedAux kw none s

/-- The keyword loop of src/security.py lines 77-81: the first configured
keyword found as a whole word in the uppercased query. -/
def first_forbidden_keyword (kws : List String) (query_upper : List Char) : Option String :=
  kws.find? (fun kw => wordBounded kw.data query_upper)

/-- `SecurityValidator.validate_query` (src/security.py lines 52-83):
length check, emptiness check (`not query.strip()` holds exactly when
every character is whitespace), injection patterns, then forbidden
keywords, returning the reason of the first failing check. -/
def validate_query (cfg : SecurityConfig) (query : String) : Bool × Option String :=
  if query.length > cfg.max_query_length then
    (false, some ("Query exceeds maximum length of " ++
      toString cfg.max_query_length ++ " characters"))
  else if query.data.all isPyWS then
    (false, some "Query cannot be empty")
  else if has_injection query then
    (false, some "Query contains potentially dangerous SQL patterns")
  else
    match first_forbidden_keyword cfg.dangerous_sql_keywords (upperL query.data) with
    | some kw => (false, some ("Query contains forbidden SQL keyword: " ++ kw))
    | none => (true, none)

/- ===================================================================
   src/security.py — SecurityValidator.validate_sql

   `validate_sql` delegates parsing to the third-party `sqlparse`
   library, which is not part of this repository.  Its behaviour on the
   inputs of interest is modelled from the library's documented
   semantics: `sqlparse.parse` splits the text into statements at
   semicolons (each semicolon stays with the statement it ends; an empty
   trailing piece is dropped; an empty input yields no statements), and
   `Statement.get_type` skips leading whitespace and reports the first
   token's keyword when it is a DML/DDL verb, else `UNKNOWN`.
   =================================================================== -/

/-- Model of `sqlparse.parse` statement splitting.  `acc` is the
statement prefix read so far (in reverse). -/
def sqlparseSplit : List Char → List Char → List (List Char)
  | acc, [] => if acc.isEmpty then [] else [acc.reverse]
  | acc, ';' :: rest => (';' :: acc).reverse :: sqlparseSplit [] rest
  | acc, c :: rest => sqlparseSplit (c :: acc) rest

/-- Statements of `sqlparse.parse(sql)`. -/
def sqlparse_statements (sql : String) : List (List Char) :=
  sqlparseSplit [] sql.data

/-- Statement verbs `Statement.get_type` recognises (DML and DDL). -/
def stmtKeywords : List String :=
  ["SELECT", "INSERT", "UPDATE", "DELETE", "MERGE", "REPLACE",
   "CREATE", "DROP", "ALTER", "TRUNCATE", "GRANT", "REVOKE"]

/-- Model of `sqlparse` `Statement.get_type`: the first word of the
statement, uppercased, when it is a recognised verb, else `UNKNOWN`. -/
def stmt_type (stmt : List Char) : String :=
  let w := String.mk (upperL ((stmt.dropWhile isPyWS).takeWhile Char.isAlpha))
  if stmtKeywords.contains w then w else "UNKNOWN"

/-- `SecurityValidator.validate_sql` (src/security.py lines 85-124): an
empty parse fails, a first statement that is not a SELECT fails, and
everything else passes — the allowed-schema loop returns `(True, None)`
whether or not an allowed schema name occurs in the SQL. -/
def validate_sql (cfg : SecurityConfig) (sql : String)
    (allowed_schemas : Option (List String)) : Bool × Option String :=
  let schemas := allowed_schemas.getD cfg.allowed_schemas
  match sqlparse_statements sql with
  | [] => (false, some "Invalid SQL syntax")
  | stmt :: _ =>
    if stmt_type stmt ≠ "SELECT" then
      (false, some "Only SELECT statements are allowed")
    else if schemas.any (fun sch => containsL (upperL sql.data) (upperL sch.data)) then
      (true, none)
    else
      (true, none)

/- ===================================================================
   src/security.py — RateLimiter

   `time.time()` timestamps are modelled as natural-number seconds (the
   claims use whole-second instants).  `check_rate_limit` mutates
   `self.calls`; the model threads the state explicitly and returns the
   new limiter alongside the result.
   =================================================================== -/

/-- `RateLimiter` (src/security.py lines 204-239). -/
structure RateLimiter where
  max_calls : Nat
  calls : List (String × Nat)
deriving DecidableEq, Repr

/-- `RateLimiter.check_rate_limit` at instant `current_time`: prune
events older than 60 seconds, count the remaining events of `user_id`,
reject at the configured maximum, otherwise append an event and allow. -/
def check_rate_limit (rl : RateLimiter) (user_id : String) (current_time : Nat) :
    (Bool × Option String) × RateLimiter :=
  let pruned := rl.calls.filter (fun e => current_time - e.2 < 60)
  let user_calls := (pruned.filter (fun e => e.1 = user_id)).length
  if user_calls ≥ rl.max_calls then
    ((false, some ("Rate limit exceeded. Maximum " ++ toString rl.max_calls ++
        " calls per minute.")),
     { rl with calls := pruned })
  else
    ((true, none), { rl with calls := pruned ++ [(user_id, current_time)] })

/- ===================================================================
   src/src/intelligence/sql_error_correction.py — SQLErrorAnalyzer

   Each classification regex is modelled by a position matcher over the
   lowercased message (all searches use `re.IGNORECASE`).  As before,
   greedy character-class quantifiers are followed by literals outside
   the class, so matching is deterministic; the optional quote in
   `'?(\w+)'?` needs one backtracking case, handled explicitly.
   =================================================================== -/

/-- `ident '?(\w+)'?...` — after a literal, Python tries the optional
quote first and falls back to no quote; either way at least one word
character must follow.  Returns the remainder after `(\w+)'?`. -/
def eatOptQuotedWord (s : List Char) : Option (List Char) :=
  match s with
  | '\'' :: rest =>
    match rest.takeWhile isWordChar with
    | [] => none   -- backtracking to the no-quote branch also fails: `'` is not a word char
    | _ :: _ =>
      let r := rest.dropWhile isWordChar
      some (match r with | '\'' :: r2 => r2 | _ => r)
  | _ =>
    match s.takeWhile isWordChar with
    | [] => none
    | _ :: _ =>
      let r := s.dropWhile isWordChar
      some (match r with | '\'' :: r2 => r2 | _ => r)

/-- `column '?(\w+)'? (does not exist|not found|cannot be resolved)` at
this position (lowercased input). -/
def colNotFound1At (s : List Char) : Bool :=
  (do
    let r1 ← eatLit "column ".data s
    let r2 ← eatOptQuotedWord r1
    let r3 ← eatLit [' '] r2
    if ("does not exist".data.isPrefixOf r3 || "not found".data.isPrefixOf r3 ||
        "cannot be resolved".data.isPrefixOf r3) then some r3 else none).isSome

/-- `Unknown column '?(\w+)'?` at this position (lowercased input). -/
def colNotFound2At (s : List Char) : Bool :=
  (do
    let r1 ← eatLit "unknown column ".data s
    eatOptQuotedWord r1).isSome

/-- `no such column: (\w+)` at this position (lowercased input). -/
def colNotFound3At (s : List Char) : Bool :=
  (do
    let r1 ← eatLit "no such column: ".data s
    match r1.takeWhile isWordChar with
    | [] => none
    | _ :: _ => some r1).isSome

/-- `table '?(\w+)'? (does not exist|not found|cannot be resolved)`. -/
def tblNotFound1At (s : List Char) : Bool :=
  (do
    let r1 ← eatLit "table ".data s
    let r2 ← eatOptQuotedWord r1
    let r3 ← eatLit [' '] r2
    if ("does not exist".data.isPrefixOf r3 || "not found".data.isPrefixOf r3 ||
        "cannot be resolved".data.isPrefixOf r3) then some r3 else none).isSome

/-- `Unknown table '?(\w+)'?`. -/
def tblNotFound2At (s : List Char) : Bool :=
  (do
    let r1 ← eatLit "unknown table ".data s
    eatOptQuotedWord r1).isSome

/-- `no such table: (\w+)`. -/
def tblNotFound3At (s : List Char) : Bool :=
  (do
    let r1 ← eatLit "no such table: ".data s
    match r1.takeWhile isWordChar with
    | [] => none
    | _ :: _ => some r1).isSome

/-- `syntax error near '?(.+?)'?`: the literal followed by an optional
quote and at least one non-newline character (`.` excludes newlines;
the lazy `.+?` with optional trailing quote needs exactly one). -/
def syntaxErrAt (s : List Char) : Bool :=
  (do
    let r1 ← eatLit "syntax error near ".data s
    match r1 with
    | [] => none
    | c :: _ => if c = '\n' then none else some r1).isSome

/-- `SQLErrorAnalyzer.ERROR_PATTERNS` classification, in dict order
(src/src/intelligence/sql_error_correction.py lines 35-102): the first
category with a matching pattern, else `unknown`. -/
def classifyError (error_message : String) : String :=
  let l := lowerL error_message.data
  if scanAny colNotFound1At l || scanAny colNotFound2At l || scanAny colNotFound3At l then
    "column_not_found"
  else if scanAny tblNotFound1At l || scanAny tblNotFound2At l || scanAny tblNotFound3At l then
    "table_not_found"
  else if scanAny syntaxErrAt l || containsL l "parseexception".data ||
      containsL l "mismatched input".data then
    "syntax_error"
  else if containsL l "type mismatch".data || containsL l "cannot cast".data ||
      containsL l "incompatible types".data then
    "type_mismatch"
  else if containsL l "not a group by expression".data ||
      containsL l "must appear in the group by clause".data then
    "aggregate_error"
  else "unknown"

/-- `SQLError` dataclass. -/
structure SQLError where
  error_message : String
  error_type : String
  sql_query : String
deriving DecidableEq, Repr

/-- `SQLCorrection` dataclass (confidence is an exact rational; the
source stores Python floats 0.8/0.6/0.7, all exactly representable). -/
structure SQLCorrection where
  original_sql : String
  corrected_sql : String
  correction_type : String
  confidence : ℚ
deriving DecidableEq, Repr

/-- `SQLErrorAnalyzer.analyze_error`: always returns an `SQLError`, with
`error_type = "unknown"` when no pattern matches. -/
def analyze_error (error_message sql_query : String) : SQLError :=
  { error_message := error_message
    error_type := classifyError error_message
    sql_query := sql_query }

/- ===================================================================
   SQLCorrector — Levenshtein distance and closest-match search
   =================================================================== -/

/-- Inner loop of the source's `levenshtein_distance`: fold one row of
the dynamic program.  `prev` is the row above starting at column `j`,
`curj` is `current_row[j]`; the result is `current_row[j:]`. -/
def levRowGo (c1 : Char) : List Char → List Nat → Nat → List Nat
  | [], _, curj => [curj]
  | _ :: _, [], curj => [curj]
  | c2 :: cs, pj :: prest, curj =>
    let ins := prest.headD 0 + 1
    let del := curj + 1
    let sub := pj + (if c1 = c2 then 0 else 1)
    curj :: levRowGo c1 cs prest (min ins (min del sub))

/-- One row update of the dynamic program (`for j, c2 in enumerate(s2)`). -/
def levRow (c1 : Char) (s2 : List Char) (prev : List Nat) : List Nat :=
  levRowGo c1 s2 prev (prev.headD 0 + 1)

/-- The post-swap body of the source's `levenshtein_distance` (assumes
`s1` is at least as long as `s2`). -/
def levCore (s1 s2 : List Char) : Nat :=
  if s2.length = 0 then s1.length
  else (s1.foldl (fun prev c1 => levRow c1 s2 prev) (List.range (s2.length + 1))).getLastD 0

/-- `levenshtein_distance` of src/src/intelligence/sql_error_correction.py
lines 341-359; the source's single recursive call swaps the arguments so
the first is the longer, modelled by direct dispatch. -/
def levenshtein_distance (s1 s2 : List Char) : Nat :=
  if s1.length < s2.length then levCore s2 s1 else levCore s1 s2

/-- The distance `_find_similar_string` uses: Levenshtein on the
lowercased strings. -/
def levDistStr (a b : String) : Nat :=
  levenshtein_distance (lowerL a.data) (lowerL b.data)

/-- `SQLCorrector._find_similar_string` (lines 333-377): pair every
candidate with its distance to the target, stable-sort by distance
(Python `list.sort` is a stable sort, modelled by insertion sort), and
return the first candidate if its distance is at most half the target's
length. -/
def find_similar_string (target : String) (candidates : List String) : Option String :=
  match candidates with
  | [] => none
  | _ :: _ =>
    match (candidates.map (fun c => (c, levDistStr target c))).insertionSort
        (fun a b => a.2 ≤ b.2) with
    | [] => none
    | best :: _ =>
      if best.2 ≤ target.length / 2 then some best.1 else none

/-- Leftmost match of `re.search(r"column '?(\w+)'?", msg, IGNORECASE)`,
returning capture group 1 with its original casing. -/
def extractColumnIdent : List Char → Option String
  | [] => none
  | s@(_ :: t) =>
    (match eatLit "column ".data (lowerL s) with
     | none => none
     | some _ =>
       -- Re-inspect the original-cased suffix after the literal.
       let r1 := s.drop "column ".length
       match r1 with
       | '\'' :: rest =>
         match rest.takeWhile isWordChar with
         | [] => none
         | w => some (String.mk w)
       | _ =>
         match r1.takeWhile isWordChar with
         | [] => none
         | w => some (String.mk w)) <|>
    extractColumnIdent t

/-- Leftmost match of `re.search(r"FROM\s+(\w+)", sql, IGNORECASE)`,
returning capture group 1 with its original casing. -/
def extractFromTable : List Char → Option String
  | [] => none
  | s@(_ :: t) =>
    (match eatLit "from".data (lowerL s) with
     | none => none
     | some _ =>
       let r1 := s.drop "from".length
       match eatWS1 r1 with
       | none => none
       | some _ =>
         match (r1.dropWhile isPyWS).takeWhile isWordChar with
         | [] => none
         | w => some (String.mk w)) <|>
    extractFromTable t

/-- `SQLCorrector._correct_column_name` (lines 157-193): extract the
offending identifier and the FROM table, look the table up, find the
most similar known column, and substitute it throughout the SQL with
fixed confidence 0.8. -/
def correct_column_name (sm : SchemaManager) (sql_error : SQLError) : Option SQLCorrection :=
  match extractColumnIdent sql_error.error_message.data with
  | none => none
  | some wrong_column =>
    match extractFromTable sql_error.sql_query.data with
    | none => none
    | some table_name =>
      match sm.get_table_columns table_name with
      | none => none
      | some [] => none   -- `if not table_columns`
      | some table_columns =>
        match find_similar_string wrong_column table_columns with
        | none => none
        | some similar_column =>
          some { original_sql := sql_error.sql_query
                 corrected_sql := pyReplace sql_error.sql_query wrong_column similar_column
                 correction_type := "column_name"
                 confidence := 0.8 }

/-- `SQLCorrector._correct_type_cast` (lines 256-270): an explicit no-op
that always returns no correction. -/
def correct_type_cast (sql_error : SQLError) : Option SQLCorrection :=
  let _ := sql_error
  none

/-- The table-name, syntax, and GROUP BY repair strategies are
dependency points of `correct_query` that no claim exercises; they are
abstracted as parameters so the theorems hold for every behaviour of
those strategies (`correct_query` dispatches to them exactly as the
source does). -/
structure CorrectorHooks where
  table_fix : SQLError → Option SQLCorrection
  syntax_fix : SQLError → Option SQLCorrection
  group_by_fix : SQLError → Option SQLCorrection

/-- `SQLCorrector.correct_query` (lines 120-155): analyze the error and
dispatch on its category; the `unknown` category has no strategy and
yields no correction.  (The source's `if not sql_error` guard is dead:
`analyze_error` always returns an object, and its unused `max_attempts`
parameter is dropped.) -/
def correct_query (sm : SchemaManager) (hooks : CorrectorHooks)
    (sql_query error_message : String) : Option SQLCorrection :=
  let sql_error := analyze_error error_message sql_query
  match sql_error.error_type with
  | "column_not_found" => correct_column_name sm sql_error
  | "table_not_found" => hooks.table_fix sql_error
  | "syntax_error" => hooks.syntax_fix sql_error
  | "type_mismatch" => correct_type_cast sql_error
  | "aggregate_error" => hooks.group_by_fix sql_error
  | _ => none

/- ===================================================================
   src/src/intelligence/sql_error_correction.py — RetryableQueryExecutor

   The Databricks client is an injected collaborator; its behaviour is a
   parameter mapping (attempt index, query) to rows or a raised error
   message.  Result rows are modelled as column-name/value pairs (cell
   payloads are never inspected by the embedded code paths).  The loop
   state (`attempt`, `current_query`, `correction_log`) is threaded
   explicitly, together with a ghost counter of backend invocations used
   to state how many times the backend was called.
   =================================================================== -/

abbrev Row := List (String × String)

/-- `{conf:.1%}` — percent with one decimal (round-half-up model of the
float formatting; no claim depends on this text). -/
def pctFmt (q : ℚ) : String :=
  let t : ℤ := (q * 1000 + 1/2).floor
  toString (t / 10) ++ "." ++ toString (t % 10) ++ "%"

/-- `error_message[:100]`. -/
def take100 (s : String) : String := String.mk (s.data.take 100)

/-- The `for attempt in range(max_retries)` loop of `execute_with_retry`
(lines 414-445).  `remaining` counts the iterations left, `attempt` the
current index, `calls` the backend invocations so far. -/
def ewrLoop (execute : Nat → String → Except String (List Row))
    (correct : String → String → Option SQLCorrection) (max_retries : Nat) :
    Nat → Nat → String → List String → Nat →
    ((Bool × Option (List Row) × List String) × Nat)
  | _, 0, _, log, calls => ((false, none, log), calls)
  | attempt, remaining + 1, current_query, log, calls =>
    match execute attempt current_query with
    | .ok results =>
      let log :=
        if attempt > 0 then
          log ++ ["✅ Query succeeded after " ++ toString attempt ++ " correction(s)"]
        else log
      ((true, some results, log), calls + 1)
    | .error error_message =>
      let log := log ++
        ["❌ Attempt " ++ toString (attempt + 1) ++ " failed: " ++ take100 error_message]
      match correct current_query error_message with
      | some correction =>
        if attempt < max_retries - 1 then
          ewrLoop execute correct max_retries (attempt + 1) remaining
            correction.corrected_sql
            (log ++ ["🔧 Applied correction: " ++ correction.correction_type ++
              " (confidence: " ++ pctFmt correction.confidence ++ ")"])
            (calls + 1)
        else
          ((false, none, log ++ ["❌ Unable to correct query"]), calls + 1)
      | none =>
        ((false, none, log ++ ["❌ Unable to correct query"]), calls + 1)

/-- `RetryableQueryExecutor.execute_with_retry` (lines 396-445). -/
def execute_with_retry (execute : Nat → String → Except String (List Row))
    (correct : String → String → Option SQLCorrection)
    (sql_query : String) (max_retries : Nat) :
    Bool × Option (List Row) × List String :=
  (ewrLoop execute correct max_retries 0 max_retries sql_query [] 0).1

/-- Number of backend invocations `execute_with_retry` performs. -/
def execute_with_retry_calls (execute : Nat → String → Except String (List Row))
    (correct : String → String → Option SQLCorrection)
    (sql_query : String) (max_retries : Nat) : Nat :=
  (ewrLoop execute correct max_retries 0 max_retries sql_query [] 0).2

/- ===================================================================
   src/src/core/agent.py — DatabricksInsightAgent

   The agent's constructor-injected collaborators are parameters of the
   model: the execution backend, the context retriever, and the optional
   LLM service are opaque functions (the LLM call can raise, hence
   `Except`).  The security validator and rate limiter are the concrete
   models above.  Insight composition returns a plain string that no
   branch inspects, and its rule-based fallback computes floating-point
   statistics that have no faithful embedding, so the whole of
   `_generate_insights` is abstracted as a parameter: the orchestration
   theorems hold for every insight function, the source's being one.
   =================================================================== -/

/-- `QueryType` enum. -/
inductive QueryType where
  | SQL_ONLY
  | CONTEXT_ONLY
  | BOTH
  | CLARIFICATION
deriving DecidableEq, Repr

/-- `QueryAnalysis` dataclass. -/
structure QueryAnalysis where
  query_type : QueryType
  needs_filters : Bool
  missing_information : List String
  confidence : ℚ
  identified_filters : List (String × FilterVal)
  target_tables : List String
deriving DecidableEq, Repr

/-- `AgentResponse` dataclass. -/
structure AgentResponse where
  success : Bool
  query_type : QueryType
  sql_query : Option String
  results : Option (List Row)
  context : Option String
  insights : String
  clarification_needed : Option String
  error : Option String
deriving DecidableEq, Repr

/-- Retrieval-style keywords of src/src/core/agent.py line 223. -/
def clarification_keywords : List String :=
  ["show", "get", "find", "list", "count", "sum", "average"]

/-- SQL-need keywords of line 239. -/
def sql_keywords : List String :=
  ["show", "get", "find", "list", "count", "sum", "average", "total", "calculate"]

/-- Context-need keywords of line 243. -/
def context_keywords : List String :=
  ["explain", "what is", "how to", "describe", "tell me about"]

/-- `DatabricksInsightAgent.analyze_query` (lines 202-264). -/
def analyze_query (sm : SchemaManager) (user_query : String) : QueryAnalysis :=
  let query_lower := lowerStr user_query
  let target_tables :=
    sm.get_all_tables.filter (fun t => containsStr query_lower (lowerStr t))
  if target_tables.isEmpty &&
      clarification_keywords.any (fun k => containsStr query_lower k) then
    { query_type := .CLARIFICATION
      needs_filters := false
      missing_information := ["table name"]
      confidence := 0.5
      identified_filters := []
      target_tables := [] }
  else
    let needs_sql := sql_keywords.any (fun k => containsStr query_lower k)
    let needs_context := context_keywords.any (fun k => containsStr query_lower k)
    let query_type :=
      if needs_sql && !needs_context then QueryType.SQL_ONLY
      else if needs_context && !needs_sql then QueryType.CONTEXT_ONLY
      else if needs_sql && needs_context then QueryType.BOTH
      else QueryType.BOTH
    { query_type := query_type
      needs_filters := true
      missing_information := []
      confidence := 0.8
      identified_filters := []
      target_tables := target_tables }

/-- `DatabricksInsightAgent._generate_clarification` (lines 386-396). -/
def generate_clarification (sm : SchemaManager) (analysis : QueryAnalysis) : String :=
  if analysis.missing_information.contains "table name" then
    "I need more information to process your query. Which table would you like to query? Available tables: " ++
      String.intercalate ", " sm.get_all_tables
  else
    "I need more information: " ++
      String.intercalate ", " analysis.missing_information ++
      ". Please provide additional details."

/-- The optional LLM collaborator's `generate_sql_from_query`: it may
raise (`.error`), return Python `None` (`.ok none`), or return a string
(`.ok (some s)`, where the empty string is falsy). -/
abbrev LlmSqlFn := String → String → Option String → Except String (Option String)

/-- `DatabricksInsightAgent._generate_safe_sql` (lines 266-307): use the
first identified table; try the LLM collaborator and keep a truthy
result; otherwise fall back to the rule-based intent parser and
generator, overriding the intent's table with the identified one and its
filters with the analysis's when the latter are truthy. -/
def generate_safe_sql (sm : SchemaManager) (llm_sql : Option LlmSqlFn)
    (user_query : String) (analysis : QueryAnalysis) (context : Option String) :
    Option String :=
  match analysis.target_tables with
  | [] => none
  | table_name :: _ =>
    let llm_result : Option String :=
      match llm_sql with
      | none => none
      | some f =>
        match f user_query (sm.get_schema_summary) context with
        | .ok (some sql) => if sql = "" then none else some sql
        | .ok none => none
        | .error _ => none
    match llm_result with
    | some sql => some sql
    | none =>
      let intent := parse_query_intent sm user_query context
      let filters :=
        if !analysis.identified_filters.isEmpty then some analysis.identified_filters
        else intent.filters
      generate_sql sm table_name intent.columns filters intent.aggregations
        intent.group_by intent.order_by intent.limit

/-- The injected collaborators and shared state `process_query` reads:
schema, security configuration, optional rate limiter (with the current
instant for `time.time()`), context retriever, optional LLM SQL
generator, execution backend, and the insight composer (abstracted, see
the section comment). -/
structure AgentDeps where
  schema : SchemaManager
  config : SecurityConfig
  rate_limiter : Option RateLimiter
  now : Nat
  get_context : String → Nat → String
  llm_sql : Option LlmSqlFn
  execute_query : String → Except String (List Row)
  gen_insights : String → Option (List Row) → Option String → QueryAnalysis →
    Option String → String

/-- `str(error_msg)` interpolation of an optional reason into an
f-string (`None` renders as the text `None`). -/
def optMsgStr : Option String → String
  | none => "None"
  | some s => s

/-- Step 7 of `process_query` (lines 188-200): compose insights and
return the success response. -/
def final_success (deps : AgentDeps) (user_query : String)
    (analysis : QueryAnalysis) (context : Option String)
    (sql_query : Option String) (results : Option (List Row)) : AgentResponse :=
  { success := true, query_type := analysis.query_type, sql_query := sql_query,
    results := results, context := context,
    insights := deps.gen_insights user_query results context analysis sql_query,
    clarification_needed := none, error := none }

/-- `DatabricksInsightAgent.process_query` (src/src/core/agent.py lines
84-200): security validation, rate limiting, query analysis,
clarification, context retrieval, SQL generation + validation +
execution, and insight composition, with the source's six return
points. -/
def process_query (deps : AgentDeps) (user_query user_id : String) : AgentResponse :=
  -- Step 1: security validation
  match validate_query deps.config user_query with
  | (false, error_msg) =>
    { success := false, query_type := .CLARIFICATION, sql_query := none,
      results := none, context := none, insights := "",
      clarification_needed := none,
      error := some ("Security validation failed: " ++ optMsgStr error_msg) }
  | (true, _) =>
    -- Step 2: rate limiting
    let rate_check : Option (Option String) :=
      match deps.rate_limiter with
      | none => none
      | some rl =>
        match check_rate_limit rl user_id deps.now with
        | ((true, _), _) => none
        | ((false, rate_msg), _) => some rate_msg
    match rate_check with
    | some rate_msg =>
      { success := false, query_type := .CLARIFICATION, sql_query := none,
        results := none, context := none, insights := "",
        clarification_needed := none, error := some (optMsgStr rate_msg) }
    | none =>
      -- Step 3: analyze the query
      let query_analysis := analyze_query deps.schema user_query
      -- Step 4: clarification
      if query_analysis.query_type = .CLARIFICATION then
        { success := false, query_type := .CLARIFICATION, sql_query := none,
          results := none, context := none, insights := "",
          clarification_needed := some (generate_clarification deps.schema query_analysis),
          error := none }
      else
        -- Step 5: retrieve context if needed
        let context : Option String :=
          if query_analysis.query_type = .CONTEXT_ONLY ||
              query_analysis.query_type = .BOTH then
            some (deps.get_context user_query 3)
          else none
        -- Step 6: generate and execute SQL if needed
        let sql_query : Option String :=
          if query_analysis.query_type = .SQL_ONLY ||
              query_analysis.query_type = .BOTH then
            generate_safe_sql deps.schema deps.llm_sql user_query query_analysis context
          else none
        match sql_query with
        | some sql =>
          -- `if sql_query:` — an empty string is falsy and skips this block
          if sql = "" then
            final_success deps user_query query_analysis context (some sql) none
          else
            match validate_sql deps.config sql none with
            | (false, sql_error) =>
              { success := false, query_type := query_analysis.query_type,
                sql_query := some sql, results := none, context := context,
                insights := "", clarification_needed := none,
                error := some ("SQL validation failed: " ++ optMsgStr sql_error) }
            | (true, _) =>
              match deps.execute_query sql with
              | .error e =>
                { success := false, query_type := query_analysis.query_type,
                  sql_query := some sql, results := none, context := context,
                  insights := "", clarification_needed := none,
                  error := some ("Query execution failed: " ++ e) }
              | .ok rows =>
                final_success deps user_query query_analysis context (some sql) (some rows)
        | none =>
          final_success deps user_query query_analysis context none none

/- ===================================================================
   Derived predicates and concrete fixtures used by the theorems.
   =================================================================== -/

/-- The column names a generation request refers to: the requested
columns, the aggregation targets, the filter columns, the group-by
columns, and the order-by columns (a falsy argument refers to none). -/
def referenced_columns (columns : Option (List String))
    (filters : Option (List (String × FilterVal)))
    (aggregations : Option (List (String × String)))
    (group_by : Option (List String))
    (order_by : Option (List (String × String))) : List String :=
  optL columns ++ (optL aggregations).map Prod.fst ++
    (optL filters).map Prod.fst ++ optL group_by ++ (optL order_by).map Prod.fst

/-- Terminal outcome "success": success flag set, no error, no
clarification request. -/
def outcome_success (r : AgentResponse) : Prop :=
  r.success = true ∧ r.error = none ∧ r.clarification_needed = none

/-- Terminal outcome "clarification": a clarification request, no
success, no error. -/
def outcome_clarification (r : AgentResponse) : Prop :=
  r.success = false ∧ r.clarification_needed.isSome = true ∧ r.error = none

/-- Terminal outcome "error": an error, no success, no clarification. -/
def outcome_error (r : AgentResponse) : Prop :=
  r.success = false ∧ r.error.isSome = true ∧ r.clarification_needed = none

/-- The repository's own test fixture: the `sales` table of
src/test_core.py. -/
def smSales : SchemaManager :=
  SchemaManager.add_table ⟨[]⟩
    { name := "sales"
      columns := ["transaction_id", "customer_id", "amount", "date", "region"]
      column_types :=
        [("transaction_id", "STRING"), ("customer_id", "STRING"),
         ("amount", "DECIMAL"), ("date", "DATE"), ("region", "STRING")] }

/-- The spec's worked correction example: a misspelled column over the
`sales` fixture. -/
def exErr : SQLError :=
  analyze_error "column 'transactoin_id' does not exist" "SELECT transactoin_id FROM sales"

/-- Trivial corrector hooks (every abstracted strategy declines). -/
def constHooks : CorrectorHooks :=
  { table_fix := fun _ => none, syntax_fix := fun _ => none, group_by_fix := fun _ => none }

/- ===================================================================
   Helper lemmas
   =================================================================== -/

theorem optL_eq_nil {α : Type} (l : Option (List α)) (h : pyT l = false) :
    optL l = [] := by
  cases l with
  | none => rfl
  | some xs => cases xs with
    | nil => rfl
    | cons x xs => simp [pyT] at h

theorem buildAggParts_mem (sm : SchemaManager) (tn : String) :
    ∀ (l : List (String × String)) (ps : List String),
      buildAggParts sm tn l = some ps →
      ∀ p ∈ l, sm.column_exists tn p.1 = true := by
  intro l
  induction l with
  | nil => intro ps _ p hp; simp at hp
  | cons hd tl ih =>
    obtain ⟨col, f⟩ := hd
    intro ps h p hp
    simp only [buildAggParts] at h
    split at h
    · split at h
      · rcases Option.map_eq_some'.mp h with ⟨ps', hps', _⟩
        rcases List.mem_cons.mp hp with rfl | hmem
        · assumption
        · exact ih ps' hps' p hmem
      · exact absurd h (by simp)
    · exact absurd h (by simp)

theorem buildWhereParts_mem (sm : SchemaManager) (tn : String) :
    ∀ (l : List (String × FilterVal)) (ps : List String),
      buildWhereParts sm tn l = some ps →
      ∀ p ∈ l, sm.column_exists tn p.1 = true := by
  intro l
  induction l with
  | nil => intro ps _ p hp; simp at hp
  | cons hd tl ih =>
    obtain ⟨col, v⟩ := hd
    intro ps h p hp
    simp only [buildWhereParts] at h
    split at h
    · rcases Option.map_eq_some'.mp h with ⟨ps', hps', _⟩
      rcases List.mem_cons.mp hp with rfl | hmem
      · assumption
      · exact ih ps' hps' p hmem
    · exact absurd h (by simp)

theorem buildOrderParts_mem (sm : SchemaManager) (tn : String) :
    ∀ (l : List (String × String)) (ps : List String),
      buildOrderParts sm tn l = some ps →
      ∀ p ∈ l, sm.column_exists tn p.1 = true := by
  intro l
  induction l with
  | nil => intro ps _ p hp; simp at hp
  | cons hd tl ih =>
    obtain ⟨col, d⟩ := hd
    intro ps h p hp
    simp only [buildOrderParts] at h
    split at h
    · split at h
      · rcases Option.map_eq_some'.mp h with ⟨ps', hps', _⟩
        rcases List.mem_cons.mp hp with rfl | hmem
        · assumption
        · exact ih ps' hps' p hmem
      · exact absurd h (by simp)
    · exact absurd h (by simp)

theorem selectColsOf_mem (sm : SchemaManager) (tn : String) (table : TableSchema)
    (cols : Option (List String)) (sc : List String)
    (h : selectColsOf sm tn table cols = some sc) :
    ∀ c ∈ optL cols, sm.column_exists tn c = true := by
  intro c hc
  unfold selectColsOf at h
  split at h
  · split at h
    · exact List.all_eq_true.mp (by assumption) c hc
    · exact absurd h (by simp)
  · rw [optL_eq_nil cols (by simp_all)] at hc
    simp at hc

theorem selectPartsOf_mem (sm : SchemaManager) (tn : String) (sc : List String)
    (aggs : Option (List (String × String))) (ps : List String)
    (h : selectPartsOf sm tn sc aggs = some ps) :
    ∀ p ∈ optL aggs, sm.column_exists tn p.1 = true := by
  intro p hp
  unfold selectPartsOf at h
  split at h
  · exact buildAggParts_mem sm tn (optL aggs) ps h p hp
  · rw [optL_eq_nil aggs (by simp_all)] at hp
    simp at hp

theorem wherePartsOf_mem (sm : SchemaManager) (tn : String)
    (filters : Option (List (String × FilterVal))) (ps : List String)
    (h : wherePartsOf sm tn filters = some ps) :
    ∀ p ∈ optL filters, sm.column_exists tn p.1 = true := by
  intro p hp
  unfold wherePartsOf at h
  split at h
  · exact buildWhereParts_mem sm tn (optL filters) ps h p hp
  · rw [optL_eq_nil filters (by simp_all)] at hp
    simp at hp

theorem groupByClause_mem (sm : SchemaManager) (tn : String)
    (gb : Option (List String)) (r : Option String)
    (h : groupByClause sm tn gb = some r) :
    ∀ c ∈ optL gb, sm.column_exists tn c = true := by
  intro c hc
  unfold groupByClause at h
  split at h
  · split at h
    · exact List.all_eq_true.mp (by assumption) c hc
    · exact absurd h (by simp)
  · rw [optL_eq_nil gb (by simp_all)] at hc
    simp at hc

theorem orderByClause_mem (sm : SchemaManager) (tn : String)
    (ob : Option (List (String × String))) (r : Option String)
    (h : orderByClause sm tn ob = some r) :
    ∀ p ∈ optL ob, sm.column_exists tn p.1 = true := by
  intro p hp
  unfold orderByClause at h
  split at h
  · rcases Option.map_eq_some'.mp h with ⟨ps', hps', _⟩
    exact buildOrderParts_mem sm tn (optL ob) ps' hps' p hp
  · rw [optL_eq_nil ob (by simp_all)] at hp
    simp at hp

/- ===================================================================
   Claim theorems
   =================================================================== -/

/-- C1: For every schema catalog, table name, and generation intent
(columns, filters, aggregations, group_by, order_by, limit),
`SQLGenerator.generate_sql` either returns a SQL string in which every
referenced column belongs to the named table's column set, or returns
`None`; it never returns a string containing a column identifier absent
from that table's schema.  (The referenced columns of a request are the
requested select columns, aggregation targets, filter columns, group-by
columns and order-by columns — the identifiers spliced into the SQL
text.) -/
theorem generate_sql_only_known_columns
    (sm : SchemaManager) (table_name : String)
    (columns : Option (List String))
    (filters : Option (List (String × FilterVal)))
    (aggregations : Option (List (String × String)))
    (group_by : Option (List String))
    (order_by : Option (List (String × String)))
    (limit : LimitVal) (s : String)
    (h : generate_sql sm table_name columns filters aggregations group_by
      order_by limit = some s) :
    ∀ c ∈ referenced_columns columns filters aggregations group_by order_by,
      sm.column_exists table_name c = true := by
  intro c hc
  unfold generate_sql at h
  split at h
  · exact absurd h (by simp)
  · rename_i table htable
    split at h
    · exact absurd h (by simp)
    · rename_i sc hsc
      split at h
      · exact absurd h (by simp)
      · rename_i sp hsp
        split at h
        · exact absurd h (by simp)
        · rename_i wp hwp
          -- the `if wp.isEmpty` branch only changes the string, not validity
          split at h <;>
          · split at h
            · exact absurd h (by simp)
            · rename_i gbc hgbc
              split at h
              · exact absurd h (by simp)
              · rename_i obc hobc
                split at h
                · exact absurd h (by simp)
                · unfold referenced_columns at hc
                  simp only [List.mem_append] at hc
                  rcases hc with ((((hc | hc) | hc) | hc) | hc)
                  · exact selectColsOf_mem sm table_name table columns sc hsc c hc
                  · rcases List.mem_map.mp hc with ⟨p, hp, rfl⟩
                    exact selectPartsOf_mem sm table_name sc aggregations sp hsp p hp
                  · rcases List.mem_map.mp hc with ⟨p, hp, rfl⟩
                    exact wherePartsOf_mem sm table_name filters wp hwp p hp
                  · exact groupByClause_mem sm table_name group_by gbc hgbc c hc
                  · rcases List.mem_map.mp hc with ⟨p, hp, rfl⟩
                    exact orderByClause_mem sm table_name order_by obc hobc p hp

/-- Witness for C1 at a concrete input: a request over the `sales`
fixture that generates successfully, whose referenced column the theorem
places in the table's schema. -/
theorem generate_sql_only_known_columns_witness :
    SchemaManager.column_exists smSales "sales" "amount" = true :=
  generate_sql_only_known_columns smSales "sales" (some ["amount"])
    (some [("region", FilterVal.strV "US")]) none none
    (some [("amount", "DESC")]) (LimitVal.intV 5)
    "SELECT amount FROM sales WHERE region = 'US' ORDER BY amount DESC LIMIT 5"
    (by decide) "amount" (by decide)

/-- C5: With `RateLimiter(max_calls_per_minute=3)`, three calls for
"u1" at instant 0 are allowed, a fourth at the same instant is rejected
(and appends no event), a call for "u2" in the same window is allowed,
and a call for "u1" at instant 61 is allowed again, the instant-0 events
having been pruned; the resulting event lists exhibit pruning, per-identity
counting, and append-only-on-allowed. -/
theorem rate_limiter_window_scenario :
    let s0 : RateLimiter := { max_calls := 3, calls := [] }
    let c1 := check_rate_limit s0 "u1" 0
    let c2 := check_rate_limit c1.2 "u1" 0
    let c3 := check_rate_limit c2.2 "u1" 0
    let c4 := check_rate_limit c3.2 "u1" 0
    let c5 := check_rate_limit c4.2 "u2" 0
    let c6 := check_rate_limit c5.2 "u1" 61
    c1.1.1 = true ∧ c2.1.1 = true ∧ c3.1.1 = true ∧
    c4.1.1 = false ∧ c5.1.1 = true ∧ c6.1.1 = true ∧
    c4.2.calls = [("u1", 0), ("u1", 0), ("u1", 0)] ∧
    c5.2.calls = [("u1", 0), ("u1", 0), ("u1", 0), ("u2", 0)] ∧
    c6.2.calls = [("u1", 61)] := by decide

/-- C10: `generate_sql` with `limit = 0` behaves exactly as with
`limit = None` (limit 0 is treated as absent, so the result carries no
LIMIT clause), while any negative integer limit and any non-integer
truthy limit make it return `None`. -/
theorem generate_sql_limit_edge_cases :
    (∀ sm tn cols filters aggs gb ob,
      generate_sql sm tn cols filters aggs gb ob (LimitVal.intV 0) =
        generate_sql sm tn cols filters aggs gb ob LimitVal.noneV) ∧
    (∀ sm tn cols filters aggs gb ob (n : Int), n < 0 →
      generate_sql sm tn cols filters aggs gb ob (LimitVal.intV n) = none) ∧
    (∀ sm tn cols filters aggs gb ob,
      generate_sql sm tn cols filters aggs gb ob LimitVal.nonIntTruthy = none) := by
  refine ⟨fun sm tn cols filters aggs gb ob => rfl, ?_, ?_⟩
  · intro sm tn cols filters aggs gb ob n hn
    have ht : (LimitVal.intV n).truthy = true := by
      simp [LimitVal.truthy]
      omega
    have hl : limitClause (LimitVal.intV n) = none := by
      simp [limitClause, ht]
      omega
    unfold generate_sql
    simp only [hl]
    repeat' split
    all_goals rfl
  · intro sm tn cols filters aggs gb ob
    have hl : limitClause LimitVal.nonIntTruthy = none := rfl
    unfold generate_sql
    simp only [hl]
    repeat' split
    all_goals rfl

/-- Witness for C10 at a concrete input: limit 0 yields the plain query
with no LIMIT clause, limit -1 yields `None`. -/
theorem generate_sql_limit_edge_cases_witness :
    generate_sql smSales "sales" (some ["amount"]) none none none none
        (LimitVal.intV 0) = generate_sql smSales "sales" (some ["amount"])
        none none none none LimitVal.noneV ∧
    generate_sql smSales "sales" (some ["amount"]) none none none none
        (LimitVal.intV (-1)) = none :=
  ⟨generate_sql_limit_edge_cases.1 smSales "sales" (some ["amount"]) none none none none,
   generate_sql_limit_edge_cases.2.1 smSales "sales" (some ["amount"]) none none none none
     (-1) (by decide)⟩

theorem generate_sql_star_agg_none (sm : SchemaManager) (tn : String)
    (tbl : TableSchema) (cols : Option (List String))
    (filters : Option (List (String × FilterVal)))
    (gb : Option (List String)) (ob : Option (List (String × String)))
    (lim : LimitVal)
    (hget : sm.get_table tn = some tbl)
    (hstar : tbl.columns.contains "*" = false) :
    generate_sql sm tn cols filters (some [("*", "COUNT")]) gb ob lim = none := by
  have hce : sm.column_exists tn "*" = false := by
    simp only [SchemaManager.column_exists, hget]
    exact hstar
  have hsp : ∀ sc, selectPartsOf sm tn sc (some [("*", "COUNT")]) = none := by
    intro sc
    simp [selectPartsOf, pyT, buildAggParts, hce]
  unfold generate_sql
  simp only [hget]
  split
  · rfl
  · rename_i sc _
    simp [hsp sc]

theorem parse_query_intent_count_total (sm : SchemaManager) (text : String)
    (ctx : Option String)
    (h : containsStr (lowerStr text) "count" = true ∨
         containsStr (lowerStr text) "total" = true) :
    (parse_query_intent sm text ctx).aggregations = some [("*", "COUNT")] := by
  have hany : agg_words.any (fun w => containsStr (lowerStr text) w) = true := by
    rcases h with h | h
    · exact List.any_eq_true.mpr ⟨"count", by simp [agg_words], h⟩
    · exact List.any_eq_true.mpr ⟨"total", by simp [agg_words], h⟩
  have hor : (containsStr (lowerStr text) "count" ||
      containsStr (lowerStr text) "total") = true := by
    rcases h with h | h <;> simp [h]
  simp [parse_query_intent, hany, hor]

/-- C9: For every table in the catalog whose column list does not
contain the literal string `*`, `generate_sql` with aggregations
`{'*': 'COUNT'}` returns `None` (the `*` key is validated as a column
and fails); consequently every intent `parse_query_intent` produces from
text containing "count" or "total" is rejected by `generate_sql` for
such tables. -/
theorem generate_sql_rejects_count_star :
    (∀ (sm : SchemaManager) (tn : String) (tbl : TableSchema)
       (cols : Option (List String)) (filters : Option (List (String × FilterVal)))
       (gb : Option (List String)) (ob : Option (List (String × String)))
       (lim : LimitVal),
       sm.get_table tn = some tbl → tbl.columns.contains "*" = false →
       generate_sql sm tn cols filters (some [("*", "COUNT")]) gb ob lim = none) ∧
    (∀ (sm : SchemaManager) (tn : String) (tbl : TableSchema)
       (text : String) (ctx : Option String),
       sm.get_table tn = some tbl → tbl.columns.contains "*" = false →
       (containsStr (lowerStr text) "count" = true ∨
        containsStr (lowerStr text) "total" = true) →
       generate_sql sm tn (parse_query_intent sm text ctx).columns
         (parse_query_intent sm text ctx).filters
         (parse_query_intent sm text ctx).aggregations
         (parse_query_intent sm text ctx).group_by
         (parse_query_intent sm text ctx).order_by
         (parse_query_intent sm text ctx).limit = none) := by
  constructor
  · intro sm tn tbl cols filters gb ob lim hget hstar
    exact generate_sql_star_agg_none sm tn tbl cols filters gb ob lim hget hstar
  · intro sm tn tbl text ctx hget hstar hword
    rw [parse_query_intent_count_total sm text ctx hword]
    exact generate_sql_star_agg_none sm tn tbl _ _ _ _ _ hget hstar

/-- Witness for C9 at a concrete input: the `sales` fixture has no `*`
column, so a "count"-triggered intent generates no SQL. -/
theorem generate_sql_rejects_count_star_witness :
    generate_sql smSales "sales"
      (parse_query_intent smSales "count the sales" none).columns
      (parse_query_intent smSales "count the sales" none).filters
      (parse_query_intent smSales "count the sales" none).aggregations
      (parse_query_intent smSales "count the sales" none).group_by
      (parse_query_intent smSales "count the sales" none).order_by
      (parse_query_intent smSales "count the sales" none).limit = none :=
  generate_sql_rejects_count_star.2 smSales "sales"
    { name := "sales"
      columns := ["transaction_id", "customer_id", "amount", "date", "region"]
      column_types :=
        [("transaction_id", "STRING"), ("customer_id", "STRING"),
         ("amount", "DECIMAL"), ("date", "DATE"), ("region", "STRING")] }
    "count the sales" none (by decide) (by decide) (Or.inl (by decide))

/-- C6 (amended): `parse_query_intent` sets the COUNT(*) default exactly
when the lowercased text contains "count" or "total"; when it contains
one of "sum"/"average"/"avg" but neither "count" nor "total" the
aggregations field is present but empty; it is absent exactly when none
of the five trigger words occurs. -/
theorem parse_query_intent_aggregation_cases :
    ∀ (sm : SchemaManager) (text : String) (ctx : Option String),
      (containsStr (lowerStr text) "count" = true ∨
         containsStr (lowerStr text) "total" = true →
        (parse_query_intent sm text ctx).aggregations = some [("*", "COUNT")]) ∧
      (agg_words.any (fun w => containsStr (lowerStr text) w) = true →
       containsStr (lowerStr text) "count" = false →
       containsStr (lowerStr text) "total" = false →
        (parse_query_intent sm text ctx).aggregations = some []) ∧
      (agg_words.all (fun w => !containsStr (lowerStr text) w) = true →
        (parse_query_intent sm text ctx).aggregations = none) := by
  intro sm text ctx
  refine ⟨parse_query_intent_count_total sm text ctx, ?_, ?_⟩
  · intro hany hc ht
    simp [parse_query_intent, hany, hc, ht]
  · intro hnone
    have hany : agg_words.any (fun w => containsStr (lowerStr text) w) = false := by
      rw [List.any_eq_false]
      intro w hw
      have := List.all_eq_true.mp hnone w hw
      simp at this
      simp [this]
    simp [parse_query_intent, hany]

/-- Witness for C6's amended claim at concrete inputs: "total sales"
yields the COUNT(*) default, "sum of sales" a present-but-empty mapping,
and "hello" no aggregations field. -/
theorem parse_query_intent_aggregation_cases_witness :
    (parse_query_intent ⟨[]⟩ "total sales" none).aggregations = some [("*", "COUNT")] ∧
    (parse_query_intent ⟨[]⟩ "sum of sales" none).aggregations = some [] ∧
    (parse_query_intent ⟨[]⟩ "hello" none).aggregations = none :=
  ⟨(parse_query_intent_aggregation_cases ⟨[]⟩ "total sales" none).1 (Or.inr (by decide)),
   (parse_query_intent_aggregation_cases ⟨[]⟩ "sum of sales" none).2.1
     (by decide) (by decide) (by decide),
   (parse_query_intent_aggregation_cases ⟨[]⟩ "hello" none).2.2 (by decide)⟩

/-- Counterexample to C6 as stated: "sum of sales" contains the trigger
word "sum", yet the intent's aggregations field is `{}` (present and
empty), not the claimed COUNT(*) default. -/
theorem parse_query_intent_sum_counterexample :
    containsStr (lowerStr "sum of sales") "sum" = true ∧
    (parse_query_intent ⟨[]⟩ "sum of sales" none).aggregations = some [] ∧
    (parse_query_intent ⟨[]⟩ "sum of sales" none).aggregations ≠
      some [("*", "COUNT")] := by decide

/-- C4: `SecurityValidator.validate_query` applies its checks in the
fixed order length → emptiness → injection patterns → forbidden
keywords, the reported reason being that of the first failing check; in
particular "DELETE FROM sales WHERE region = 'US'" passes the earlier
checks and is rejected with a reason naming the forbidden keyword
DELETE. -/
theorem validate_query_check_order :
    (∀ (cfg : SecurityConfig) (q : String), cfg.max_query_length < q.length →
      validate_query cfg q = (false, some ("Query exceeds maximum length of " ++
        toString cfg.max_query_length ++ " characters"))) ∧
    (∀ (cfg : SecurityConfig) (q : String), q.length ≤ cfg.max_query_length →
      q.data.all isPyWS = true →
      validate_query cfg q = (false, some "Query cannot be empty")) ∧
    (∀ (cfg : SecurityConfig) (q : String), q.length ≤ cfg.max_query_length →
      q.data.all isPyWS = false → has_injection q = true →
      validate_query cfg q =
        (false, some "Query contains potentially dangerous SQL patterns")) ∧
    (∀ (cfg : SecurityConfig) (q : String) (kw : String),
      q.length ≤ cfg.max_query_length → q.data.all isPyWS = false →
      has_injection q = false →
      first_forbidden_keyword cfg.dangerous_sql_keywords (upperL q.data) = some kw →
      validate_query cfg q =
        (false, some ("Query contains forbidden SQL keyword: " ++ kw))) ∧
    validate_query default_config "DELETE FROM sales WHERE region = 'US'" =
      (false, some "Query contains forbidden SQL keyword: DELETE") := by
  refine ⟨?_, ?_, ?_, ?_, by decide⟩
  · intro cfg q hlen
    simp [validate_query, hlen]
  · intro cfg q hlen hws
    simp [validate_query, Nat.not_lt.mpr hlen, hws]
  · intro cfg q hlen hws hinj
    simp [validate_query, Nat.not_lt.mpr hlen, hws, hinj]
  · intro cfg q kw hlen hws hinj hkw
    simp [validate_query, Nat.not_lt.mpr hlen, hws, hinj, hkw]

/-- Witness for C4 at concrete inputs: an all-whitespace query of legal
length fails with the emptiness reason, and a query that passes length,
emptiness and injection checks but contains the whole word DELETE fails
naming DELETE. -/
theorem validate_query_check_order_witness :
    validate_query default_config " " = (false, some "Query cannot be empty") ∧
    validate_query default_config "please DELETE it" =
      (false, some ("Query contains forbidden SQL keyword: " ++ "DELETE")) :=
  ⟨validate_query_check_order.2.1 default_config " " (by decide) (by decide),
   validate_query_check_order.2.2.2.1 default_config "please DELETE it" "DELETE"
     (by decide) (by decide) (by decide) (by decide)⟩

/-- C3 (amended): `SecurityValidator.validate_sql` fails exactly when
the input parses to no statements (empty input) or when the *first*
parsed statement is not a SELECT; it does not inspect any further
statement, so a multi-statement input whose first statement is a SELECT
passes. -/
theorem validate_sql_first_statement_only :
    (∀ (cfg : SecurityConfig) (sql : String) (schemas : Option (List String)),
      sqlparse_statements sql = [] →
      validate_sql cfg sql schemas = (false, some "Invalid SQL syntax")) ∧
    (∀ (cfg : SecurityConfig) (sql : String) (schemas : Option (List String))
       (st : List Char) (rest : List (List Char)),
      sqlparse_statements sql = st :: rest → stmt_type st ≠ "SELECT" →
      validate_sql cfg sql schemas =
        (false, some "Only SELECT statements are allowed")) ∧
    (∀ (cfg : SecurityConfig) (sql : String) (schemas : Option (List String))
       (st : List Char) (rest : List (List Char)),
      sqlparse_statements sql = st :: rest → stmt_type st = "SELECT" →
      validate_sql cfg sql schemas = (true, none)) := by
  refine ⟨?_, ?_, ?_⟩
  · intro cfg sql schemas hparse
    simp [validate_sql, hparse]
  · intro cfg sql schemas st rest hparse htype
    simp [validate_sql, hparse, htype]
  · intro cfg sql schemas st rest hparse htype
    simp only [validate_sql, hparse, htype]
    split
    · simp_all
    · split <;> rfl

/-- Witness for C3's amended claim at concrete inputs: empty input
fails, a DELETE statement fails, a single SELECT passes. -/
theorem validate_sql_first_statement_only_witness :
    validate_sql default_config "" none = (false, some "Invalid SQL syntax") ∧
    validate_sql default_config "DELETE FROM sales" none =
      (false, some "Only SELECT statements are allowed") ∧
    validate_sql default_config "SELECT amount FROM sales" none = (true, none) :=
  ⟨validate_sql_first_statement_only.1 default_config "" none (by decide),
   validate_sql_first_statement_only.2.1 default_config "DELETE FROM sales" none
     "DELETE FROM sales".data [] (by decide) (by decide),
   validate_sql_first_statement_only.2.2 default_config "SELECT amount FROM sales" none
     "SELECT amount FROM sales".data [] (by decide) (by decide)⟩

/-- Counterexample to C3 as stated: "SELECT a FROM t; DROP TABLE t"
consists of two statements, yet `validate_sql` accepts it because only
the first parsed statement's type is checked. -/
theorem validate_sql_multi_statement_counterexample :
    (sqlparse_statements "SELECT a FROM t; DROP TABLE t").length = 2 ∧
    stmt_type ((sqlparse_statements "SELECT a FROM t; DROP TABLE t").headD []) =
      "SELECT" ∧
    validate_sql default_config "SELECT a FROM t; DROP TABLE t" none =
      (true, none) := by decide

theorem correct_query_unknown (sm : SchemaManager) (hooks : CorrectorHooks)
    (sql_query error_message : String)
    (h : classifyError error_message = "unknown") :
    correct_query sm hooks sql_query error_message = none := by
  simp [correct_query, analyze_error, h]

/-- C2 (amended): for every `max_retries ≥ 1`, if the backend raises on
every call with a message matching none of the classifier's patterns
(classified "unknown"), `execute_with_retry` returns failure after the
backend has been invoked exactly once — the first uncorrectable failure
ends the loop, regardless of the remaining retry budget. -/
theorem execute_with_retry_unknown_error_one_attempt
    (execute : Nat → String → Except String (List Row))
    (sm : SchemaManager) (hooks : CorrectorHooks)
    (sql : String) (max_retries : Nat)
    (hret : 1 ≤ max_retries)
    (hfail : ∀ n q, ∃ msg, execute n q = .error msg ∧ classifyError msg = "unknown") :
    (execute_with_retry execute (correct_query sm hooks) sql max_retries).1 = false ∧
    execute_with_retry_calls execute (correct_query sm hooks) sql max_retries = 1 := by
  obtain ⟨r, rfl⟩ : ∃ r, max_retries = r + 1 := ⟨max_retries - 1, by omega⟩
  obtain ⟨msg, hmsg, hcl⟩ := hfail 0 sql
  have hcq := correct_query_unknown sm hooks sql msg hcl
  constructor
  · simp [execute_with_retry, ewrLoop, hmsg, hcq]
  · simp [execute_with_retry_calls, ewrLoop, hmsg, hcq]

/-- Witness for C2's amended claim at a concrete input: a backend that
always raises "boom" (an unclassifiable message) under a retry budget
of 2. -/
theorem execute_with_retry_unknown_error_one_attempt_witness :
    (execute_with_retry (fun _ _ => Except.error "boom")
      (correct_query ⟨[]⟩ constHooks) "SELECT 1" 2).1 = false ∧
    execute_with_retry_calls (fun _ _ => Except.error "boom")
      (correct_query ⟨[]⟩ constHooks) "SELECT 1" 2 = 1 :=
  execute_with_retry_unknown_error_one_attempt (fun _ _ => Except.error "boom")
    ⟨[]⟩ constHooks "SELECT 1" 2 (by decide)
    (fun _ _ => ⟨"boom", rfl, by decide⟩)

/-- Counterexample to C2 as stated: with `max_retries = 3` and a backend
that always raises the unclassifiable message "boom", the backend is
invoked once, not the claimed three times. -/
theorem execute_with_retry_attempt_count_counterexample :
    classifyError "boom" = "unknown" ∧
    execute_with_retry_calls (fun _ _ => Except.error "boom")
      (correct_query ⟨[]⟩ constHooks) "SELECT 1" 3 = 1 ∧
    (1 : Nat) ≠ 3 := by decide

theorem find_similar_string_some_spec (target : String) (cands : List String)
    (best : String) (h : find_similar_string target cands = some best) :
    best ∈ cands ∧ levDistStr target best ≤ target.length / 2 ∧
    ∀ c ∈ cands, levDistStr target best ≤ levDistStr target c := by
  haveI htot : IsTotal (String × Nat) (fun a b => a.2 ≤ b.2) :=
    ⟨fun a b => Nat.le_total a.2 b.2⟩
  haveI htrans : IsTrans (String × Nat) (fun a b => a.2 ≤ b.2) :=
    ⟨fun _ _ _ hab hbc => le_trans hab hbc⟩
  unfold find_similar_string at h
  split at h
  · exact absurd h (by simp)
  · rename_i c0 cs
    have hperm :
        ((c0 :: cs).map (fun c => (c, levDistStr target c))).insertionSort
            (fun a b => a.2 ≤ b.2) |>.Perm
          ((c0 :: cs).map (fun c => (c, levDistStr target c))) :=
      List.perm_insertionSort _ _
    have hsorted :
        List.Sorted (fun a b : String × Nat => a.2 ≤ b.2)
          (((c0 :: cs).map (fun c => (c, levDistStr target c))).insertionSort
            (fun a b => a.2 ≤ b.2)) :=
      List.sorted_insertionSort _ _
    split at h
    · exact absurd h (by simp)
    · rename_i hd rest hs
      rw [hs] at hperm hsorted
      split at h
      · rename_i hbound
        have hbest : hd.1 = best := by
          simpa using h
        have hmemd : hd ∈ (c0 :: cs).map (fun c => (c, levDistStr target c)) :=
          hperm.mem_iff.mp (List.mem_cons_self hd rest)
        rcases List.mem_map.mp hmemd with ⟨c, hc, hceq⟩
        have hmin : ∀ p ∈ (c0 :: cs).map (fun c => (c, levDistStr target c)),
            hd.2 ≤ p.2 := by
          intro p hp
          rcases List.mem_cons.mp (hperm.mem_iff.mpr hp) with rfl | hpr
          · exact le_refl _
          · exact (List.sorted_cons.mp hsorted).1 p hpr
        have hdist : levDistStr target best = hd.2 := by
          rw [← hbest, ← hceq]
        refine ⟨?_, ?_, ?_⟩
        · rw [← hbest, ← hceq]; exact hc
        · rw [hdist]; exact hbound
        · intro c' hc'
          rw [hdist]
          exact hmin (c', levDistStr target c') (List.mem_map.mpr ⟨c', hc', rfl⟩)
      · exact absurd h (by simp)

theorem find_similar_string_none_spec (target : String) (cands : List String)
    (hne : cands ≠ []) (h : find_similar_string target cands = none) :
    ∀ c ∈ cands, target.length / 2 < levDistStr target c := by
  haveI htot : IsTotal (String × Nat) (fun a b => a.2 ≤ b.2) :=
    ⟨fun a b => Nat.le_total a.2 b.2⟩
  haveI htrans : IsTrans (String × Nat) (fun a b => a.2 ≤ b.2) :=
    ⟨fun _ _ _ hab hbc => le_trans hab hbc⟩
  unfold find_similar_string at h
  split at h
  · exact absurd rfl hne
  · rename_i c0 cs
    have hperm :
        ((c0 :: cs).map (fun c => (c, levDistStr target c))).insertionSort
            (fun a b => a.2 ≤ b.2) |>.Perm
          ((c0 :: cs).map (fun c => (c, levDistStr target c))) :=
      List.perm_insertionSort _ _
    have hsorted :
        List.Sorted (fun a b : String × Nat => a.2 ≤ b.2)
          (((c0 :: cs).map (fun c => (c, levDistStr target c))).insertionSort
            (fun a b => a.2 ≤ b.2)) :=
      List.sorted_insertionSort _ _
    split at h
    · rename_i hs
      have := hperm.length_eq
      rw [hs] at this
      simp at this
    · rename_i hd rest hs
      rw [hs] at hperm hsorted
      split at h
      · exact absurd h (by simp)
      · rename_i hbound
        push_neg at hbound
        intro c hc
        have hp : (c, levDistStr target c) ∈
            (c0 :: cs).map (fun c => (c, levDistStr target c)) :=
          List.mem_map.mpr ⟨c, hc, rfl⟩
        rcases List.mem_cons.mp (hperm.mem_iff.mpr hp) with heq | hpr
        · have : levDistStr target c = hd.2 := by rw [← heq]
          omega
        · have := (List.sorted_cons.mp hsorted).1 _ hpr
          simp only at this
          omega

set_option maxRecDepth 100000

/-- C7: For a column_not_found error whose message names an identifier
and whose SQL names a table present in the catalog, the corrector
proposes a known column of that table of minimum Levenshtein distance to
the identifier if and only if that distance is at most
`floor(len(identifier)/2)`, with confidence exactly 0.8; in particular,
for the error "column 'transactoin_id' does not exist" over a table with
column `transaction_id`, the returned correction has confidence 0.8 and
its corrected SQL contains `transaction_id` and no occurrence of
`transactoin_id`. -/
theorem correct_column_name_levenshtein :
    (∀ (sm : SchemaManager) (err : SQLError) (wrong table_name : String)
       (cols : List String),
      extractColumnIdent err.error_message.data = some wrong →
      extractFromTable err.sql_query.data = some table_name →
      sm.get_table_columns table_name = some cols → cols ≠ [] →
      ((∃ corr, correct_column_name sm err = some corr ∧
          corr.confidence = 0.8 ∧
          ∃ best ∈ cols,
            corr.corrected_sql = pyReplace err.sql_query wrong best ∧
            levDistStr wrong best ≤ wrong.length / 2 ∧
            ∀ c ∈ cols, levDistStr wrong best ≤ levDistStr wrong c) ↔
        ∃ c ∈ cols, levDistStr wrong c ≤ wrong.length / 2)) ∧
    (correct_column_name smSales exErr =
      some { original_sql := "SELECT transactoin_id FROM sales"
             corrected_sql := "SELECT transaction_id FROM sales"
             correction_type := "column_name"
             confidence := 0.8 } ∧
     containsStr "SELECT transaction_id FROM sales" "transaction_id" = true ∧
     containsStr "SELECT transaction_id FROM sales" "transactoin_id" = false) := by
  constructor
  · intro sm err wrong table_name cols h1 h2 h3 h4
    constructor
    · rintro ⟨corr, _, _, best, hbmem, _, hdist, _⟩
      exact ⟨best, hbmem, hdist⟩
    · rintro ⟨c, hcmem, hcd⟩
      obtain ⟨hd, tl, rfl⟩ : ∃ hd tl, cols = hd :: tl := by
        cases cols with
        | nil => exact absurd rfl h4
        | cons hd tl => exact ⟨hd, tl, rfl⟩
      simp only [correct_column_name, h1, h2, h3]
      cases hfss : find_similar_string wrong (hd :: tl) with
      | none =>
        exfalso
        have := find_similar_string_none_spec wrong (hd :: tl) (by simp) hfss c hcmem
        omega
      | some best =>
        obtain ⟨hbmem, hbd, hbmin⟩ := find_similar_string_some_spec wrong (hd :: tl) best hfss
        exact ⟨_, rfl, rfl, best, hbmem, rfl, hbd, hbmin⟩
  · exact ⟨by rfl, by decide, by decide⟩

/-- Witness for C7 at the spec's concrete example, via the theorem's
backward direction: `transaction_id` lies within the distance bound, so
a minimum-distance correction with confidence 0.8 is returned. -/
theorem correct_column_name_levenshtein_witness :
    ∃ corr, correct_column_name smSales exErr = some corr ∧
      corr.confidence = 0.8 ∧
      ∃ best ∈ ["transaction_id", "customer_id", "amount", "date", "region"],
        corr.corrected_sql = pyReplace exErr.sql_query "transactoin_id" best ∧
        levDistStr "transactoin_id" best ≤ "transactoin_id".length / 2 ∧
        ∀ c ∈ ["transaction_id", "customer_id", "amount", "date", "region"],
          levDistStr "transactoin_id" best ≤ levDistStr "transactoin_id" c :=
  (correct_column_name_levenshtein.1 smSales exErr "transactoin_id" "sales"
    ["transaction_id", "customer_id", "amount", "date", "region"]
    (by decide) (by decide) (by decide) (by decide)).mpr
    ⟨"transaction_id", by decide, by decide⟩

theorem outcomes_mutually_exclusive (r : AgentResponse) :
    ¬(outcome_success r ∧ outcome_clarification r) ∧
    ¬(outcome_success r ∧ outcome_error r) ∧
    ¬(outcome_clarification r ∧ outcome_error r) := by
  unfold outcome_success outcome_clarification outcome_error
  refine ⟨?_, ?_, ?_⟩ <;> rintro ⟨⟨h1, h2, h3⟩, g1, g2, g3⟩ <;> simp_all

/-- C8: For every input text, identity, and behaviour of the
collaborators (backend, context provider, LLM), the response
`process_query` returns carries exactly one of the three outcomes —
success (success flag, no error, no clarification), clarification
request, or error — never more than one simultaneously. -/
theorem process_query_exactly_one_outcome :
    ∀ (deps : AgentDeps) (user_query user_id : String),
      (outcome_success (process_query deps user_query user_id) ∨
       outcome_clarification (process_query deps user_query user_id) ∨
       outcome_error (process_query deps user_query user_id)) ∧
      ¬(outcome_success (process_query deps user_query user_id) ∧
        outcome_clarification (process_query deps user_query user_id)) ∧
      ¬(outcome_success (process_query deps user_query user_id) ∧
        outcome_error (process_query deps user_query user_id)) ∧
      ¬(outcome_clarification (process_query deps user_query user_id) ∧
        outcome_error (process_query deps user_query user_id)) := by
  intro deps q uid
  obtain ⟨h1, h2, h3⟩ := outcomes_mutually_exclusive (process_query deps q uid)
  refine ⟨?_, h1, h2, h3⟩
  simp only [process_query]
  repeat' split
  all_goals simp [outcome_success, outcome_clarification, outcome_error, final_success]
